import Mathlib

/-!
Verification development for the MediGo appointment-booking backend.

The definitions below are a shallow embedding of the JavaScript source:
Mongoose models (Specialization, Conversation, Appointment, User), the
chat/appointment/user controllers and the authentication middleware.
MongoDB aggregation pipelines are modelled stage by stage over Lean lists;
machine dates are milliseconds since the epoch as natural numbers; HH:MM
time-of-day values stay strings and are compared lexicographically, exactly
as MongoDB compares them.
-/

namespace Medigo


/-! ## String primitives

JavaScript computes the word list with symptoms.toLowerCase().split(/\s+/).
A regex split treats each maximal whitespace run as one separator: interior
runs collapse, a leading run still yields a leading empty piece, a trailing
run yields a trailing empty piece, and the empty string yields one empty
piece.  The splitter below implements exactly that as structural recursion
over the character list (the inWs flag says whether the scan stands inside
a whitespace run).  MongoDB compares strings bytewise; for these ASCII
fields that is lexicographic comparison of the character lists, implemented
by charListLt.
-/

def jsSplitAux : List Char → List Char → Bool → List (List Char)
  | [], acc, inWs => if inWs then [[]] else [acc.reverse]
  | c :: cs, acc, inWs =>
    if inWs then
      if c.isWhitespace then jsSplitAux cs acc true
      else jsSplitAux cs [c] false
    else
      if c.isWhitespace then acc.reverse :: jsSplitAux cs [] true
      else jsSplitAux cs (c :: acc) false

/-- The JavaScript split(/\s+/) of a string. -/
def jsSplitWhitespace (s : String) : List String :=
  (jsSplitAux s.data [] false).map String.mk

/-- The word list W of a symptoms string: toLowerCase, then split(/\s+/)
(the lowercasing is per character; the data here is ASCII). -/
def symptomWords (symptoms : String) : List String :=
  jsSplitWhitespace (String.mk (symptoms.data.map Char.toLower))

/-- Lexicographic (bytewise) comparison of character lists, the order
MongoDB applies to strings in $lt, $gt and $max. -/
def charListLt : List Char → List Char → Bool
  | [], [] => false
  | [], _ :: _ => true
  | _ :: _, [] => false
  | a :: as, b :: bs =>
    if a < b then true
    else if b < a then false
    else charListLt as bs

/-- Bytewise string comparison as MongoDB performs it. -/
def strLtB (s t : String) : Bool :=
  charListLt s.data t.data

/-! ## Specialization model (specialization.model.js) -/

/-- One entry of commonSymptoms: a symptom name, its keywords, a weight. -/
structure SymptomEntry where
  symptom : String
  keywords : List String
  weight : ℚ
deriving DecidableEq, Repr

/-- One entry of urgencyKeywords. -/
structure UrgencyEntry where
  keyword : String
  urgencyLevel : String
deriving DecidableEq, Repr

/-- A Specialization document (the fields the static methods read). -/
structure Specialization where
  name : String
  commonSymptoms : List SymptomEntry
  urgencyKeywords : List UrgencyEntry
  isActive : Bool
deriving DecidableEq, Repr

/-- MongoDB $size of $setIntersection: the number of distinct elements the
two arrays share (arrays are treated as sets). -/
def setIntersectionSize (xs ys : List String) : Nat :=
  ((xs.filter (fun k => decide (k ∈ ys))).dedup).length

/-- The matchScore field added by the $addFields stage of findBySymptoms:
$sum over commonSymptoms of weight * $size($setIntersection(keywords, W)). -/
def matchScore (entries : List SymptomEntry) (ws : List String) : ℚ :=
  (entries.map (fun e => e.weight * (setIntersectionSize e.keywords ws : ℚ))).sum

/-- Specialization.findBySymptoms, stage by stage:
$match isActive, $addFields matchScore, $match matchScore > 0,
$sort matchScore descending, $limit 5. -/
def findBySymptoms (db : List Specialization) (symptoms : String) :
    List (Specialization × ℚ) :=
  let ws := symptomWords symptoms
  let stage1 := db.filter (fun sp => sp.isActive)
  let stage2 := stage1.map (fun sp => (sp, matchScore sp.commonSymptoms ws))
  let stage3 := stage2.filter (fun p => decide ((0 : ℚ) < p.2))
  let stage4 := stage3.mergeSort (fun a b => decide (b.2 ≤ a.2))
  stage4.take 5

/-- The matchScore exactly as the specification words it: the sum over
entries of the weight multiplied by the cardinality of the set
intersection of the keywords with the word list. -/
def matchScoreSpec (entries : List SymptomEntry) (ws : List String) : ℚ :=
  (entries.map
    (fun e => e.weight * ((e.keywords.toFinset ∩ ws.toFinset).card : ℚ))).sum

/-- findBySymptoms as the specification words it: among active
specializations exactly those with positive matchScore, sorted by
matchScore descending, truncated to five. -/
def findBySymptomsSpec (db : List Specialization) (symptoms : String) :
    List (Specialization × ℚ) :=
  let ws := symptomWords symptoms
  let scored := (db.filter (fun sp => sp.isActive)).map
    (fun sp => (sp, matchScoreSpec sp.commonSymptoms ws))
  let positive := scored.filter (fun p => decide ((0 : ℚ) < p.2))
  (positive.mergeSort (fun a b => decide (b.2 ≤ a.2))).take 5

/-! ## Conversation model (conversation.model.js)

Statuses and steps are the schema enums.  Dates are milliseconds.  The
random conversationId and messageId values play no role in any claim and
are not modelled.
-/

inductive ConvStatus where
  | started
  | gathering_symptoms
  | analyzing_symptoms
  | recommending_doctor
  | confirming_doctor
  | checking_availability
  | selecting_slot
  | confirming_appointment
  | completed
  | cancelled
  | error
deriving DecidableEq, Repr

inductive ConvStep where
  | initial_greeting
  | symptom_collection
  | symptom_clarification
  | doctor_recommendation
  | doctor_confirmation
  | slot_selection
  | appointment_confirmation
  | completed
deriving DecidableEq, Repr

/-- A message subdocument (sender, content, messageType, metadata). -/
structure Message where
  sender : String
  content : String
  messageType : String
  agentType : Option String
  confidence : Option ℚ
  suggestions : List String
deriving DecidableEq, Repr

/-- A Conversation document (the fields the controllers touch). -/
structure Conversation where
  status : ConvStatus
  currentStep : ConvStep
  isActive : Bool
  sessionTimeout : Nat
  completedAt : Option Nat
  appointmentId : Option Nat
  messages : List Message
deriving DecidableEq, Repr

/-- conversationSchema.methods.addMessage: push the message and move the
session timeout thirty minutes past now. -/
def Conversation.addMessage (c : Conversation) (sender content messageType : String)
    (agentType : Option String) (confidence : Option ℚ) (suggestions : List String)
    (now : Nat) : Conversation :=
  { c with
    messages := c.messages ++
      [{ sender := sender, content := content, messageType := messageType,
         agentType := agentType, confidence := confidence,
         suggestions := suggestions }],
    sessionTimeout := now + 30 * 60 * 1000 }

/-- conversationSchema.methods.updateStatus: set the status, set the step
when one is given, refresh the session timeout. -/
def Conversation.updateStatus (c : Conversation) (status : ConvStatus)
    (step : Option ConvStep) (now : Nat) : Conversation :=
  { c with
    status := status,
    currentStep := match step with | some st => st | none => c.currentStep,
    sessionTimeout := now + 30 * 60 * 1000 }

/-- conversationSchema.methods.complete: completed status and step, record
the completion time, deactivate, attach the appointment when given. -/
def Conversation.complete (c : Conversation) (appointmentId : Option Nat)
    (now : Nat) : Conversation :=
  { c with
    status := ConvStatus.completed,
    currentStep := ConvStep.completed,
    completedAt := some now,
    isActive := false,
    appointmentId := match appointmentId with
      | some a => some a
      | none => c.appointmentId }

/-- endConversation (chat.controller.js): cancel, deactivate, log a system
message. -/
def endConversationUpdate (c : Conversation) (now : Nat) : Conversation :=
  ({ c with status := ConvStatus.cancelled, isActive := false }).addMessage
    ("system") ("Conversation ended by user") ("text") none none [] now

/-- Position of each status in the linear order the claim describes
(terminal non-chain statuses take the positions after completed, in the
order the schema enum lists them). -/
def chainIndex : ConvStatus → Nat
  | ConvStatus.started => 0
  | ConvStatus.gathering_symptoms => 1
  | ConvStatus.analyzing_symptoms => 2
  | ConvStatus.recommending_doctor => 3
  | ConvStatus.confirming_doctor => 4
  | ConvStatus.checking_availability => 5
  | ConvStatus.selecting_slot => 6
  | ConvStatus.confirming_appointment => 7
  | ConvStatus.completed => 8
  | ConvStatus.cancelled => 9
  | ConvStatus.error => 10

/-- A conversation already completed, used to exhibit a backward status
transition. -/
def demoCompletedConv : Conversation :=
  { status := ConvStatus.completed, currentStep := ConvStep.completed,
    isActive := false, sessionTimeout := 0, completedAt := some 0,
    appointmentId := none, messages := [] }

/-- The $nin [completed, cancelled] status filter used by both
updateMany in startNewConversation and findActiveForUser. -/
def notTerminal (s : ConvStatus) : Bool :=
  decide (s ≠ ConvStatus.completed) && decide (s ≠ ConvStatus.cancelled)

/-- The initial greeting message text of startNewConversation. -/
def greetingText : String :=
  "Hello! I\x27m MediGo, your AI medical assistant. I\x27m here to help you find the right doctor and book an appointment. Could you please tell me about your symptoms or health concerns?"

/-- The conversation created by startNewConversation after the greeting
message has been added (schema defaults: active, thirty-minute timeout). -/
def freshGreetedConv (now : Nat) : Conversation :=
  ({ status := ConvStatus.started, currentStep := ConvStep.initial_greeting,
     isActive := true, sessionTimeout := now + 30 * 60 * 1000,
     completedAt := none, appointmentId := none,
     messages := [] } : Conversation).addMessage
    ("agent") greetingText ("text") (some ("symptom_analyzer")) (some 1) [] now

/-- startNewConversation (chat.controller.js) on the stored conversations
of one user: updateMany cancels and deactivates every active
non-terminal conversation, then a new started conversation is created and
greeted. -/
def startNewConversation (convs : List Conversation) (now : Nat) :
    List Conversation :=
  let deactivated := convs.map fun c =>
    if c.isActive && notTerminal c.status then
      { c with isActive := false, status := ConvStatus.cancelled }
    else c
  deactivated ++ [freshGreetedConv now]

/-! ## Chat with the AI agent (chat.controller.js) -/

/-- The JSON body returned by the agent microservice (the fields
chatWithAgent reads).  extractedData and aiContext are agent-shaped blobs
that only matter when present; the fallback carries neither. -/
structure AgentResponse where
  message : String
  agentType : String
  confidence : ℚ
  requiresInput : Bool
  suggestions : List String
  newStatus : Option ConvStatus
  newStep : Option ConvStep
  appointmentId : Option Nat
deriving DecidableEq, Repr

/-- The fixed fallback returned by callAIAgentService when the HTTP call
fails or the response is not OK. -/
def fallbackAgentResponse : AgentResponse :=
  { message := "I\x27m currently experiencing some technical difficulties. Please try again in a moment, or you can call our helpline for immediate assistance.",
    agentType := "system",
    confidence := 0,
    requiresInput := false,
    suggestions := ["Try again", "Contact support"],
    newStatus := some ConvStatus.error,
    newStep := none,
    appointmentId := none }

/-- Outcome of the fetch to the agent microservice: a parsed OK response,
a non-OK HTTP status, or a thrown network error. -/
inductive ServiceCall where
  | success (r : AgentResponse)
  | httpFailure (status : Nat)
  | networkFailure (msg : String)
deriving DecidableEq, Repr

/-- callAIAgentService: a non-OK response throws inside the try block, so
both failure shapes land in the catch, which returns the fallback instead
of propagating the error. -/
def callAIAgentService (call : ServiceCall) : AgentResponse :=
  match call with
  | ServiceCall.success r => r
  | ServiceCall.httpFailure _ => fallbackAgentResponse
  | ServiceCall.networkFailure _ => fallbackAgentResponse

/-- The conversation updates chatWithAgent applies to an agent response:
append the agent message with its metadata, apply newStatus through
updateStatus when present, and complete when an appointment was created. -/
def applyAgentResponse (c : Conversation) (r : AgentResponse) (now : Nat) :
    Conversation :=
  let c1 := c.addMessage ("agent") r.message ("text") (some r.agentType)
    (some r.confidence) r.suggestions now
  let c2 := match r.newStatus with
    | some s => c1.updateStatus s r.newStep now
    | none => c1
  match r.appointmentId with
  | some aid => c2.complete (some aid) now
  | none => c2

/-- One authenticated chat turn of chatWithAgent after the conversation is
in hand: append the user message, call the agent service, apply the
response, answer HTTP 200. -/
def chatTurn (c : Conversation) (userMessage : String) (call : ServiceCall)
    (now : Nat) : Nat × Conversation :=
  let cu := c.addMessage ("user") userMessage ("text") none none [] now
  let r := callAIAgentService call
  (200, applyAgentResponse cu r now)

/-- The agent message record produced for the fallback response. -/
def fallbackAgentMessage : Message :=
  { sender := "agent", content := fallbackAgentResponse.message,
    messageType := "text", agentType := some ("system"), confidence := some 0,
    suggestions := ["Try again", "Contact support"] }

/-! ## Appointment model (appointment.model.js) -/

inductive ApptStatus where
  | scheduled
  | confirmed
  | inProgress
  | completed
  | cancelled
  | noShow
  | rescheduled
deriving DecidableEq, Repr

/-- The HH:MM time slot subdocument; MongoDB compares the strings
lexicographically. -/
structure TimeSlot where
  startTime : String
  endTime : String
deriving DecidableEq, Repr

/-- An Appointment document (the fields the hook and controllers touch).
Dates are milliseconds since the epoch. -/
structure Appointment where
  id : Nat
  patient : Nat
  doctor : Nat
  appointmentDate : Nat
  timeSlot : TimeSlot
  symptoms : String
  status : ApptStatus
  consultationFee : ℚ
  cancelledAt : Option Nat
  cancelledBy : Option String
  cancellationReason : Option String
deriving DecidableEq, Repr

/-- The HH:MM format the schema match validator accepts:
([0-1]?[0-9]|2[0-3]):[0-5][0-9]. -/
def validTimeFormat (s : String) : Bool :=
  match s.data with
  | [h, sep, m1, m2] =>
      decide (sep = ':') && h.isDigit &&
      decide ('0' ≤ m1) && decide (m1 ≤ '5') && m2.isDigit
  | [h1, h2, sep, m1, m2] =>
      decide (sep = ':') &&
      ((decide (h1 = '0') || decide (h1 = '1')) && h2.isDigit ||
        decide (h1 = '2') && decide ('0' ≤ h2) && decide (h2 ≤ '3')) &&
      decide ('0' ≤ m1) && decide (m1 ≤ '5') && m2.isDigit
  | _ => false

/-- The ORM per-field validation of an appointment: required fields with
their match, min and maxlength constraints (enum fields are valid by
construction of their types). -/
def appointmentFieldsValid (a : Appointment) : Bool :=
  validTimeFormat a.timeSlot.startTime &&
  validTimeFormat a.timeSlot.endTime &&
  decide ((0 : ℚ) ≤ a.consultationFee) &&
  decide (a.symptoms.data.filter (fun ch => !ch.isWhitespace) ≠ []) &&
  decide (a.symptoms.length ≤ 1000)

/-- The statuses the conflict query treats as occupying a slot. -/
def occupyingStatuses : List ApptStatus :=
  [ApptStatus.scheduled, ApptStatus.confirmed, ApptStatus.inProgress]

/-- Appointment.checkConflict: is there a stored appointment of this
doctor, on exactly this date, in an occupying status, whose slot strings
overlap (startTime < endTime and endTime > startTime, lexicographically),
the excluded id aside? -/
def checkConflict (db : List Appointment) (doctorId : Nat)
    (appointmentDate : Nat) (startTime endTime : String)
    (excludeId : Option Nat) : Bool :=
  db.any fun b =>
    decide (b.doctor = doctorId) &&
    decide (b.appointmentDate = appointmentDate) &&
    decide (b.status ∈ occupyingStatuses) &&
    strLtB b.timeSlot.startTime endTime &&
    strLtB startTime b.timeSlot.endTime &&
    (match excludeId with
     | some i => decide (b.id ≠ i)
     | none => true)

/-- The pre-save hook: when the document is new or its date or slot was
modified, reject past dates, then reject conflicts (the document itself
excluded by id). -/
def preSaveCheck (db : List Appointment) (a : Appointment)
    (isNewDoc modifiedDate modifiedSlot : Bool) (now : Nat) :
    Except String Unit :=
  if isNewDoc || modifiedDate || modifiedSlot then
    if a.appointmentDate < now then
      Except.error ("Appointment cannot be scheduled in the past")
    else if checkConflict db a.doctor a.appointmentDate a.timeSlot.startTime
        a.timeSlot.endTime (some a.id) then
      Except.error ("Time slot is already booked")
    else Except.ok ()
  else Except.ok ()

/-- Saving an appointment document against the stored list: on hook
rejection the store is untouched, otherwise a new document is appended and
an existing one is replaced by id. -/
def saveAppointment (db : List Appointment) (a : Appointment)
    (isNewDoc modifiedDate modifiedSlot : Bool) (now : Nat) :
    Except String (List Appointment) :=
  match preSaveCheck db a isNewDoc modifiedDate modifiedSlot now with
  | Except.error e => Except.error e
  | Except.ok _ =>
      Except.ok (if isNewDoc then db ++ [a]
        else db.map fun b => if b.id = a.id then a else b)

/-- No double booking: stored appointments of one doctor with identical
date and occupying statuses never have overlapping slot strings. -/
def NoDoubleBooking (db : List Appointment) : Prop :=
  ∀ x ∈ db, ∀ y ∈ db, x.id ≠ y.id → x.doctor = y.doctor →
    x.appointmentDate = y.appointmentDate →
    x.status ∈ occupyingStatuses → y.status ∈ occupyingStatuses →
    ¬(strLtB x.timeSlot.startTime y.timeSlot.endTime = true ∧
      strLtB y.timeSlot.startTime x.timeSlot.endTime = true)

/-- A field-valid appointment dated in the past (date 1000 ms, now
2000 ms). -/
def demoPastAppt : Appointment :=
  { id := 1, patient := 10, doctor := 20, appointmentDate := 1000,
    timeSlot := { startTime := "10:00", endTime := "10:30" },
    symptoms := "headache", status := ApptStatus.scheduled,
    consultationFee := 500, cancelledAt := none, cancelledBy := none,
    cancellationReason := none }

/-- A stored future appointment of doctor 20 (09:00 to 09:30). -/
def demoBookedAppt : Appointment :=
  { id := 2, patient := 11, doctor := 20, appointmentDate := 86400000,
    timeSlot := { startTime := "09:00", endTime := "09:30" },
    symptoms := "cough", status := ApptStatus.scheduled,
    consultationFee := 500, cancelledAt := none, cancelledBy := none,
    cancellationReason := none }

/-- A new appointment of the same doctor and date in a disjoint slot. -/
def demoOkAppt : Appointment :=
  { id := 3, patient := 12, doctor := 20, appointmentDate := 86400000,
    timeSlot := { startTime := "10:00", endTime := "10:30" },
    symptoms := "fever", status := ApptStatus.scheduled,
    consultationFee := 500, cancelledAt := none, cancelledBy := none,
    cancellationReason := none }

/-! ## User accounts and the email OTP workflow (user.controller.js)

Controller handlers are modelled as functions from the stored user
document and the request data to the pair of the HTTP status code and the
resulting stored document (unchanged on failure).  OTP generation is
random six-digit material; the generated value enters as the gen
argument.
-/

/-- A User document (the fields the OTP workflow touches). -/
structure UserAcc where
  id : Nat
  email : String
  firstName : String
  isActive : Bool
  isEmailVerified : Bool
  emailOTP : Option String
  emailOTPExpiry : Option Nat
  resetPasswordOTP : Option String
  resetPasswordOTPExpiry : Option Nat
deriving DecidableEq, Repr

/-- verifyEmail: a missing or empty (falsy) otp is rejected outright; the
findOne query matches only when the supplied otp equals the stored
emailOTP and emailOTPExpiry lies strictly in the future; on a match the
account is marked verified and both OTP fields are cleared. -/
def otpQueryMatches (u : UserAcc) (o : String) (now : Nat) : Bool :=
  match u.emailOTP, u.emailOTPExpiry with
  | some stored, some exp => decide (stored = o) && decide (now < exp)
  | _, _ => false

def verifyEmail (u : UserAcc) (otp : Option String) (now : Nat) :
    Nat × UserAcc :=
  match otp with
  | none => (400, u)
  | some o =>
    if o = "" then (400, u)
    else if otpQueryMatches u o now then
      (200, { u with isEmailVerified := true, emailOTP := none,
                     emailOTPExpiry := none })
    else (400, u)

/-- The user document signup creates (the OTP-relevant part): lowercased
trimmed email, a fresh email OTP, expiry ten minutes from now, not yet
verified. -/
def signupCreateUser (id : Nat) (email firstName : String) (now : Nat)
    (gen : String) : UserAcc :=
  { id := id, email := String.mk (email.data.map Char.toLower),
    firstName := firstName, isActive := true, isEmailVerified := false,
    emailOTP := some gen, emailOTPExpiry := some (now + 10 * 60 * 1000),
    resetPasswordOTP := none, resetPasswordOTPExpiry := none }

/-- resendEmailOTP: already-verified accounts are rejected with 400;
otherwise a fresh OTP with a ten-minute expiry is stored (and saved)
before the mail is sent, so a failed send answers 500 with the new OTP
already stored. -/
def resendEmailOTP (u : UserAcc) (now : Nat) (gen : String)
    (emailOk : Bool) : Nat × UserAcc :=
  if u.isEmailVerified then (400, u)
  else
    let saved := { u with emailOTP := some gen,
                          emailOTPExpiry := some (now + 10 * 60 * 1000) }
    if emailOk then (200, saved) else (500, saved)

/-- forgotPassword after an active user was found: store a reset OTP with
a fifteen-minute expiry; when sending the mail fails, clear both reset
fields again and answer 500. -/
def forgotPassword (u : UserAcc) (now : Nat) (gen : String)
    (emailOk : Bool) : Nat × UserAcc :=
  let saved := { u with resetPasswordOTP := some gen,
                        resetPasswordOTPExpiry := some (now + 15 * 60 * 1000) }
  if emailOk then (200, saved)
  else (500, { saved with resetPasswordOTP := none,
                          resetPasswordOTPExpiry := none })

/-! ## Appointment cancellation (appointment.controller.js) -/

/-- The hoursDiff of cancelAppointment: the signed millisecond difference
between appointment time and now, divided by 1000 * 3600. -/
def cancelHoursDiff (a : Appointment) (now : Nat) : ℚ :=
  (((a.appointmentDate : Int) - (now : Int) : Int) : ℚ) / (1000 * 3600)

/-- cancelAppointment after an appointment with status scheduled or
confirmed was found for the patient: appointments less than two hours away
(hoursDiff computed from the millisecond difference) are rejected with
400; otherwise the appointment is cancelled by the patient with the given
or default reason. -/
def cancelAppointment (a : Appointment) (reason : Option String)
    (now : Nat) : Nat × Appointment :=
  if cancelHoursDiff a now < 2 then (400, a)
  else (200, { a with status := ApptStatus.cancelled,
                      cancelledAt := some now,
                      cancelledBy := some ("patient"),
                      cancellationReason := some (match reason with
                        | some r => r
                        | none => "Cancelled by patient") })

/-- A scheduled appointment only one hour away. -/
def demoSoonAppt : Appointment :=
  { id := 4, patient := 13, doctor := 21, appointmentDate := 3600000,
    timeSlot := { startTime := "11:00", endTime := "11:30" },
    symptoms := "back pain", status := ApptStatus.scheduled,
    consultationFee := 400, cancelledAt := none, cancelledBy := none,
    cancellationReason := none }

/-- A user holding a live OTP 123456 that expires at 600000 ms. -/
def demoOtpUser : UserAcc :=
  { id := 8, email := "c@d.co", firstName := "C", isActive := true,
    isEmailVerified := false, emailOTP := some ("123456"),
    emailOTPExpiry := some 600000, resetPasswordOTP := none,
    resetPasswordOTPExpiry := none }

/-! ## Authentication middleware (auth.middleware.js) -/

/-- The user document as the middleware sees it. -/
structure AuthUser where
  id : Nat
  isActive : Bool
deriving DecidableEq, Repr

/-- Outcome of jwt.verify against JWT_SECRET: a decoded payload whose id
field may be absent, or one of the three JWT error classes the catch
block distinguishes (any other thrown error is rethrown and handled by
the framework, not by the middleware). -/
inductive VerifyOutcome where
  | ok (id : Option Nat)
  | badToken
  | expired
  | notBefore
deriving DecidableEq, Repr

/-- What the middleware does with the request. -/
inductive AuthResult where
  | success (u : AuthUser)
  | failure (status : Nat) (msg : String)
deriving DecidableEq, Repr

/-- req.cookies?.token || header.replace: an empty cookie string is falsy
and falls through to the Authorization header; the replace removes the
Bearer prefix occurrences. -/
def effectiveToken (cookieToken headerAuth : Option String) :
    Option String :=
  let cookieTok := match cookieToken with
    | some t => if t = "" then none else some t
    | none => none
  let headerTok := match headerAuth with
    | some h => some (h.replace ("Bearer ") (""))
    | none => none
  match cookieTok with
  | some t => some t
  | none => headerTok

/-- The authenticate middleware: 401 without a (truthy) token, 401 when
verification fails in any of the three JWT error classes, 401 when the
decoded id matches no user, 403 when the user is inactive, and only then
success with the user attached as req.user. -/
def authenticate (cookieToken headerAuth : Option String)
    (verify : String → VerifyOutcome) (findById : Nat → Option AuthUser) :
    AuthResult :=
  match effectiveToken cookieToken headerAuth with
  | none => AuthResult.failure 401 ("Access token is required")
  | some t =>
    if t = "" then AuthResult.failure 401 ("Access token is required")
    else
      match verify t with
      | VerifyOutcome.badToken =>
          AuthResult.failure 401 ("Invalid access token")
      | VerifyOutcome.expired =>
          AuthResult.failure 401 ("Access token has expired")
      | VerifyOutcome.notBefore =>
          AuthResult.failure 401 ("Access token not active")
      | VerifyOutcome.ok oid =>
        match oid.bind findById with
        | none => AuthResult.failure 401 ("Invalid access token")
        | some u =>
          if u.isActive then AuthResult.success u
          else AuthResult.failure 403 ("Account has been deactivated")

/-- A registered route: HTTP method, path, middleware chain, handler. -/
structure Route where
  method : String
  path : String
  middlewares : List String
  handler : String
deriving DecidableEq, Repr

/-- chat.routes.js: router.use(authenticate) puts the middleware in front
of every chat route. -/
def chatRoutes : List Route :=
  [{ method := "post", path := "/message", middlewares := ["authenticate"],
     handler := "chatWithAgent" },
   { method := "post", path := "/start", middlewares := ["authenticate"],
     handler := "startNewConversation" },
   { method := "get", path := "/conversations",
     middlewares := ["authenticate"], handler := "getUserConversations" },
   { method := "get", path := "/conversations/:conversationId",
     middlewares := ["authenticate"], handler := "getConversationHistory" },
   { method := "delete", path := "/conversations/:conversationId",
     middlewares := ["authenticate"], handler := "endConversation" }]

/-- appointment.routes.js: router.use(authenticate) guards every
appointment route. -/
def appointmentRoutes : List Route :=
  [{ method := "get", path := "/", middlewares := ["authenticate"],
     handler := "getUserAppointments" },
   { method := "get", path := "/stats", middlewares := ["authenticate"],
     handler := "getAppointmentStats" },
   { method := "get", path := "/:appointmentId",
     middlewares := ["authenticate"], handler := "getAppointmentDetails" },
   { method := "patch", path := "/:appointmentId/cancel",
     middlewares := ["authenticate"], handler := "cancelAppointment" },
   { method := "patch", path := "/:appointmentId/reschedule",
     middlewares := ["authenticate"], handler := "rescheduleAppointment" },
   { method := "get", path := "/doctors/:doctorId/slots",
     middlewares := ["authenticate"], handler := "getDoctorAvailableSlots" }]

/-- user.routes.js, protected section: each route names authenticate
explicitly. -/
def protectedUserRoutes : List Route :=
  [{ method := "post", path := "/logout", middlewares := ["authenticate"],
     handler := "logout" },
   { method := "get", path := "/profile", middlewares := ["authenticate"],
     handler := "getProfile" },
   { method := "put", path := "/profile", middlewares := ["authenticate"],
     handler := "updateProfile" },
   { method := "post", path := "/verify-email",
     middlewares := ["authenticate"], handler := "verifyEmail" },
   { method := "post", path := "/change-password",
     middlewares := ["authenticate"], handler := "changePassword" },
   { method := "post", path := "/resend-email-otp",
     middlewares := ["authenticate"], handler := "resendEmailOTP" }]

/-! ## Urgency level (specialization.model.js, getUrgencyLevel) -/

/-- The urgencyLevel values left after $unwind of urgencyKeywords and the
$match on isActive and keyword membership in the split symptom words. -/
def matchedUrgencyLevels (db : List Specialization) (symptoms : String) :
    List String :=
  let ws := symptomWords symptoms
  ((db.map fun sp => sp.urgencyKeywords.filter
      (fun uk => sp.isActive && decide (uk.keyword ∈ ws))).flatten).map
    (fun uk => uk.urgencyLevel)

/-- The binary step of the $max accumulator on strings (bytewise order). -/
def strMax (s t : String) : String :=
  if strLtB s t then t else s

/-- One accumulation step of the $max aggregator. -/
def urgencyStep (acc : Option String) (l : String) : Option String :=
  match acc with
  | none => some l
  | some m => some (strMax m l)

/-- Specialization.getUrgencyLevel: the $group stage folds $max over the
matched urgencyLevel strings; an empty pipeline yields no group document
(none). -/
def getUrgencyLevel (db : List Specialization) (symptoms : String) :
    Option String :=
  (matchedUrgencyLevels db symptoms).foldl urgencyStep none

/-- A specialization with a high-level and a medium-level urgency
keyword. -/
def demoUrgencySpec : Specialization :=
  { name := "Cardiology", commonSymptoms := [],
    urgencyKeywords := [{ keyword := "chest", urgencyLevel := "high" },
                        { keyword := "pain", urgencyLevel := "medium" }],
    isActive := true }

theorem setIntersectionSize_eq_card (xs ys : List String) :
    setIntersectionSize xs ys = (xs.toFinset ∩ ys.toFinset).card := by
  unfold setIntersectionSize
  rw [← List.card_toFinset, List.toFinset_filter, ← Finset.filter_mem_eq_inter]
  congr 1
  ext a
  simp [List.mem_toFinset]

theorem matchScore_eq_spec :
    matchScore = matchScoreSpec := by
  funext entries ws
  unfold matchScore matchScoreSpec
  congr 1
  apply List.map_congr_left
  intro e _
  rw [setIntersectionSize_eq_card]

/-- Claim C1: for every symptoms string, findBySymptoms lowercases and
splits the string into the word list W, and returns, among the active
specializations, exactly those whose matchScore (the sum over
commonSymptoms entries of the weight times the size of the set
intersection of the keywords with W) is strictly positive, sorted by
matchScore descending and truncated to at most five results. -/
theorem findBySymptoms_eq_spec (db : List Specialization) (symptoms : String) :
    findBySymptoms db symptoms = findBySymptomsSpec db symptoms := by
  unfold findBySymptoms findBySymptomsSpec
  rw [matchScore_eq_spec]

/-- Claim C2 counterexample: updateStatus applied to a completed
conversation with argument started moves the status backward along the
claimed linear order, so status changes are not forward-only. -/
theorem updateStatus_moves_backward :
    (demoCompletedConv.updateStatus ConvStatus.started none 0).status =
      ConvStatus.started ∧
    demoCompletedConv.status = ConvStatus.completed ∧
    chainIndex ConvStatus.started < chainIndex ConvStatus.completed := by
  refine ⟨rfl, rfl, ?_⟩
  decide

/-- Claim C2 (amended): every persisted status is drawn from the fixed
schema enum (by construction of ConvStatus), but the status-changing
operations impose no ordering at all: updateStatus overwrites the status
with whatever value it is handed (chatWithAgent passes the agent response
newStatus straight through), complete unconditionally sets completed and
deactivates, and endConversation unconditionally sets cancelled and
deactivates, so backward and skipping transitions are possible. -/
theorem conversation_status_transitions (c : Conversation) (s : ConvStatus)
    (step : Option ConvStep) (aid : Option Nat) (now : Nat) :
    (c.updateStatus s step now).status = s ∧
    (c.complete aid now).status = ConvStatus.completed ∧
    (c.complete aid now).isActive = false ∧
    (endConversationUpdate c now).status = ConvStatus.cancelled ∧
    (endConversationUpdate c now).isActive = false := by
  refine ⟨rfl, rfl, rfl, rfl, rfl⟩

/-- Claim C10: after startNewConversation, the user has exactly one
conversation that is both active and in a non-terminal status, namely the
newly created one with status started and currentStep initial_greeting. -/
theorem startNewConversation_unique_active (convs : List Conversation)
    (now : Nat) :
    (startNewConversation convs now).filter
        (fun c => c.isActive && notTerminal c.status) =
      [freshGreetedConv now] ∧
    (freshGreetedConv now).status = ConvStatus.started ∧
    (freshGreetedConv now).currentStep = ConvStep.initial_greeting ∧
    (freshGreetedConv now).isActive = true := by
  refine ⟨?_, rfl, rfl, rfl⟩
  unfold startNewConversation
  rw [List.filter_append]
  have hnew : (List.filter (fun c => c.isActive && notTerminal c.status)
      [freshGreetedConv now]) = [freshGreetedConv now] := by
    simp [freshGreetedConv, Conversation.addMessage, notTerminal]
  rw [hnew]
  have hold : (convs.map fun c =>
      if c.isActive && notTerminal c.status then
        { c with isActive := false, status := ConvStatus.cancelled }
      else c).filter (fun c => c.isActive && notTerminal c.status) = [] := by
    induction convs with
    | nil => rfl
    | cons c t ih =>
      have hc : ((if c.isActive && notTerminal c.status then
          { c with isActive := false, status := ConvStatus.cancelled }
          else c).isActive &&
          notTerminal (if c.isActive && notTerminal c.status then
          { c with isActive := false, status := ConvStatus.cancelled }
          else c).status) = false := by
        by_cases h : (c.isActive && notTerminal c.status) = true
        · rw [if_pos h]
          rfl
        · rw [if_neg h]
          simpa using h
      rw [List.map_cons, List.filter_cons]
      simp only [hc, Bool.false_eq_true, if_false]
      exact ih
  rw [hold, List.nil_append]

/-- Claim C7: when the call to the agent microservice throws or returns a
non-OK response, no error propagates: callAIAgentService yields the fixed
fallback (agentType system, confidence 0, newStatus error), the fallback
message is appended as an agent message, the conversation status becomes
error, and the endpoint answers HTTP 200. -/
theorem chat_agent_failure_fallback (c : Conversation) (userMessage : String)
    (call : ServiceCall) (now : Nat)
    (hfail : (∃ st, call = ServiceCall.httpFailure st) ∨
      (∃ msg, call = ServiceCall.networkFailure msg)) :
    callAIAgentService call = fallbackAgentResponse ∧
    fallbackAgentResponse.agentType = "system" ∧
    fallbackAgentResponse.confidence = 0 ∧
    fallbackAgentResponse.newStatus = some ConvStatus.error ∧
    (chatTurn c userMessage call now).1 = 200 ∧
    (chatTurn c userMessage call now).2.status = ConvStatus.error ∧
    (chatTurn c userMessage call now).2.messages =
      c.messages ++
        [{ sender := "user", content := userMessage, messageType := "text",
           agentType := none, confidence := none, suggestions := [] },
         fallbackAgentMessage] := by
  have hcall : callAIAgentService call = fallbackAgentResponse := by
    rcases hfail with ⟨st, rfl⟩ | ⟨msg, rfl⟩ <;> rfl
  refine ⟨hcall, rfl, rfl, rfl, rfl, ?_, ?_⟩
  · simp only [chatTurn, hcall]
    rfl
  · simp only [chatTurn, hcall]
    simp [applyAgentResponse, Conversation.addMessage, Conversation.updateStatus,
      fallbackAgentResponse, fallbackAgentMessage]

/-- Claim C7 witness: a concrete failed call on a concrete conversation. -/
theorem chat_agent_failure_fallback_witness :
    callAIAgentService (ServiceCall.httpFailure 503) = fallbackAgentResponse ∧
    (chatTurn demoCompletedConv ("hello") (ServiceCall.httpFailure 503) 0).1 =
      200 ∧
    (chatTurn demoCompletedConv ("hello") (ServiceCall.httpFailure 503)
      0).2.status = ConvStatus.error := by
  have h := chat_agent_failure_fallback demoCompletedConv ("hello")
    (ServiceCall.httpFailure 503) 0 (Or.inl ⟨503, rfl⟩)
  exact ⟨h.1, h.2.2.2.2.1, h.2.2.2.2.2.1⟩

/-- Claim C3 counterexample: an appointment that passes every ORM
per-field constraint is still rejected by the pre-save hook, so
Appointment persistence enforces domain logic beyond field validation and
uniqueness. -/
theorem appointment_save_enforces_domain_rule :
    appointmentFieldsValid demoPastAppt = true ∧
    saveAppointment [] demoPastAppt true false false 2000 =
      Except.error ("Appointment cannot be scheduled in the past") := by
  constructor
  · decide
  · rfl

/-- Claim C3 (amended): User, Doctor, Conversation and Specialization
persistence is constrained only by ORM per-field validation and
uniqueness indexes, but Appointment saves additionally run a pre-save
hook that enforces domain invariants: a new or rescheduled appointment
whose date is in the past is rejected even when every per-field
constraint holds, and likewise one whose slot conflicts with a stored
occupying appointment of the same doctor and date. -/
theorem appointment_presave_beyond_field_validation
    (db : List Appointment) (a : Appointment) (now : Nat)
    (isNewDoc modifiedDate modifiedSlot : Bool)
    (hgate : (isNewDoc || modifiedDate || modifiedSlot) = true)
    (hfields : appointmentFieldsValid a = true) :
    (a.appointmentDate < now →
      saveAppointment db a isNewDoc modifiedDate modifiedSlot now =
        Except.error ("Appointment cannot be scheduled in the past")) ∧
    (¬(a.appointmentDate < now) →
      checkConflict db a.doctor a.appointmentDate a.timeSlot.startTime
        a.timeSlot.endTime (some a.id) = true →
      saveAppointment db a isNewDoc modifiedDate modifiedSlot now =
        Except.error ("Time slot is already booked")) := by
  constructor
  · intro hpast
    unfold saveAppointment preSaveCheck
    rw [hgate, if_pos rfl, if_pos hpast]
  · intro hfuture hconf
    unfold saveAppointment preSaveCheck
    rw [hgate, if_pos rfl, if_neg hfuture, if_pos hconf]

/-- Claim C3 amended witness: the concrete past-dated appointment. -/
theorem appointment_presave_beyond_field_validation_witness :
    saveAppointment [] demoPastAppt true false false 2000 =
      Except.error ("Appointment cannot be scheduled in the past") :=
  (appointment_presave_beyond_field_validation [] demoPastAppt 2000
    true false false (by decide) (by decide)).1 (by decide)

theorem checkConflict_iff (db : List Appointment) (d date : Nat)
    (st et : String) (i : Nat) :
    checkConflict db d date st et (some i) = true ↔
      ∃ b ∈ db, b.doctor = d ∧ b.appointmentDate = date ∧
        b.status ∈ occupyingStatuses ∧ strLtB b.timeSlot.startTime et = true ∧
        strLtB st b.timeSlot.endTime = true ∧ b.id ≠ i := by
  unfold checkConflict
  rw [List.any_eq_true]
  constructor
  · rintro ⟨b, hb, hcond⟩
    refine ⟨b, hb, ?_⟩
    simp only [Bool.and_eq_true, decide_eq_true_eq] at hcond
    exact ⟨hcond.1.1.1.1.1, hcond.1.1.1.1.2, hcond.1.1.1.2, hcond.1.1.2,
      hcond.1.2, hcond.2⟩
  · rintro ⟨b, hb, h1, h2, h3, h4, h5, h6⟩
    refine ⟨b, hb, ?_⟩
    simp only [Bool.and_eq_true, decide_eq_true_eq]
    exact ⟨⟨⟨⟨⟨h1, h2⟩, h3⟩, h4⟩, h5⟩, h6⟩

/-- Claim C4: a gated save (new document, or date or slot modified) is
rejected exactly when the date lies in the past or some other stored
appointment of the same doctor with identical date and occupying status
overlaps it (slot strings compared lexicographically); rejection leaves
the store untouched by construction of saveAppointment, and a successful
gated save preserves the pairwise no-double-booking invariant. -/
theorem appointment_save_rejects_iff_and_preserves
    (db : List Appointment) (a : Appointment)
    (isNewDoc modifiedDate modifiedSlot : Bool) (now : Nat)
    (hgate : (isNewDoc || modifiedDate || modifiedSlot) = true) :
    ((∃ e, saveAppointment db a isNewDoc modifiedDate modifiedSlot now =
        Except.error e) ↔
      (a.appointmentDate < now ∨
        ∃ b ∈ db, b.doctor = a.doctor ∧
          b.appointmentDate = a.appointmentDate ∧
          b.status ∈ occupyingStatuses ∧
          strLtB b.timeSlot.startTime a.timeSlot.endTime = true ∧
          strLtB a.timeSlot.startTime b.timeSlot.endTime = true ∧
          b.id ≠ a.id)) ∧
    (∀ db', NoDoubleBooking db →
      saveAppointment db a isNewDoc modifiedDate modifiedSlot now =
        Except.ok db' →
      NoDoubleBooking db') := by
  have hciff := checkConflict_iff db a.doctor a.appointmentDate
    a.timeSlot.startTime a.timeSlot.endTime a.id
  by_cases hpast : a.appointmentDate < now
  · have hsave : saveAppointment db a isNewDoc modifiedDate modifiedSlot now =
        Except.error ("Appointment cannot be scheduled in the past") := by
      unfold saveAppointment preSaveCheck
      rw [hgate, if_pos rfl, if_pos hpast]
    refine ⟨⟨fun _ => Or.inl hpast, fun _ => ⟨_, hsave⟩⟩, ?_⟩
    intro db' _ hok
    rw [hsave] at hok
    exact Except.noConfusion hok
  · by_cases hconf : checkConflict db a.doctor a.appointmentDate
        a.timeSlot.startTime a.timeSlot.endTime (some a.id) = true
    · have hsave : saveAppointment db a isNewDoc modifiedDate modifiedSlot
          now = Except.error ("Time slot is already booked") := by
        unfold saveAppointment preSaveCheck
        rw [hgate, if_pos rfl, if_neg hpast, if_pos hconf]
      refine ⟨⟨fun _ => Or.inr (hciff.mp hconf), fun _ => ⟨_, hsave⟩⟩, ?_⟩
      intro db' _ hok
      rw [hsave] at hok
      exact Except.noConfusion hok
    · have hok : saveAppointment db a isNewDoc modifiedDate modifiedSlot now =
          Except.ok (if isNewDoc then db ++ [a]
            else db.map fun b => if b.id = a.id then a else b) := by
        unfold saveAppointment preSaveCheck
        rw [hgate, if_pos rfl, if_neg hpast, if_neg hconf]
      have hnoc : ¬ ∃ b ∈ db, b.doctor = a.doctor ∧
          b.appointmentDate = a.appointmentDate ∧
          b.status ∈ occupyingStatuses ∧
          strLtB b.timeSlot.startTime a.timeSlot.endTime = true ∧
          strLtB a.timeSlot.startTime b.timeSlot.endTime = true ∧
          b.id ≠ a.id :=
        fun hex => hconf (hciff.mpr hex)
      constructor
      · constructor
        · rintro ⟨e, he⟩
          rw [hok] at he
          exact Except.noConfusion he
        · rintro (h | hex)
          · exact absurd h hpast
          · exact absurd hex hnoc
      · intro db' hinv hsave'
        rw [hok] at hsave'
        injection hsave' with hdb'
        subst hdb'
        by_cases hN : isNewDoc = true
        · rw [if_pos hN]
          intro x hx y hy hne hdoc hdate hxs hys hover
          rcases List.mem_append.mp hx with hx | hx
          · rcases List.mem_append.mp hy with hy | hy
            · exact hinv x hx y hy hne hdoc hdate hxs hys hover
            · have hya : y = a := by simpa using hy
              rw [hya] at hdoc hdate hover hne
              exact hnoc ⟨x, hx, hdoc, hdate, hxs, hover.1, hover.2, hne⟩
          · have hxa : x = a := by simpa using hx
            rcases List.mem_append.mp hy with hy | hy
            · rw [hxa] at hdoc hdate hover hne
              exact hnoc ⟨y, hy, hdoc.symm, hdate.symm, hys, hover.2,
                hover.1, Ne.symm hne⟩
            · have hya : y = a := by simpa using hy
              rw [hxa, hya] at hne
              exact hne rfl
        · rw [if_neg hN]
          intro x hx y hy hne hdoc hdate hxs hys hover
          rcases List.mem_map.mp hx with ⟨bx, hbx, hfx⟩
          rcases List.mem_map.mp hy with ⟨b2, hb2, hfy⟩
          by_cases h1 : bx.id = a.id
          · rw [if_pos h1] at hfx
            by_cases h2 : b2.id = a.id
            · rw [if_pos h2] at hfy
              rw [← hfx, ← hfy] at hne
              exact hne rfl
            · rw [if_neg h2] at hfy
              rw [← hfx] at hdoc hdate hover hne
              rw [← hfy] at hdoc hdate hys hover hne
              exact hnoc ⟨b2, hb2, hdoc.symm, hdate.symm, hys, hover.2,
                hover.1, h2⟩
          · rw [if_neg h1] at hfx
            by_cases h2 : b2.id = a.id
            · rw [if_pos h2] at hfy
              rw [← hfx] at hdoc hdate hxs hover hne
              rw [← hfy] at hdoc hdate hover hne
              exact hnoc ⟨bx, hbx, hdoc, hdate, hxs, hover.1, hover.2, h1⟩
            · rw [if_neg h2] at hfy
              rw [← hfx] at hdoc hdate hxs hover hne
              rw [← hfy] at hdoc hdate hys hover hne
              exact hinv bx hbx b2 hb2 hne hdoc hdate hxs hys hover

/-- Claim C4 witness: a concrete gated save next to a concrete stored
appointment succeeds and the store stays free of double bookings. -/
theorem appointment_save_witness :
    saveAppointment [demoBookedAppt] demoOkAppt true false false 0 =
      Except.ok [demoBookedAppt, demoOkAppt] ∧
    NoDoubleBooking [demoBookedAppt, demoOkAppt] := by
  have h := appointment_save_rejects_iff_and_preserves [demoBookedAppt]
    demoOkAppt true false false 0 (by decide)
  have hsave : saveAppointment [demoBookedAppt] demoOkAppt true false false
      0 = Except.ok [demoBookedAppt, demoOkAppt] := by rfl
  have hinv : NoDoubleBooking [demoBookedAppt] := by
    unfold NoDoubleBooking
    decide
  exact ⟨hsave, h.2 [demoBookedAppt, demoOkAppt] hinv hsave⟩

/-- Claim C8 counterexample: cancelAppointment enforces an
operation-specific time-window rule: a scheduled (hence otherwise
cancellable) appointment one hour away is rejected with 400 and left
unchanged, which is more than mapping raised errors to status codes. -/
theorem cancel_has_time_window_rule :
    cancelAppointment demoSoonAppt none 0 = (400, demoSoonAppt) ∧
    demoSoonAppt.status = ApptStatus.scheduled := by
  constructor
  · unfold cancelAppointment
    rw [if_pos]
    unfold cancelHoursDiff demoSoonAppt
    norm_num
  · rfl

/-- Claim C8 (amended): error handling is not limited to mapping raised
errors to HTTP status codes; endpoints do apply operation-specific
failure rules, among them the two the original claim singled out as
absent: cancelAppointment rejects (400, unchanged) whenever the
appointment is under two hours away and cancels otherwise, and
forgotPassword performs compensating cleanup, clearing the stored reset
OTP and expiry again and answering 500 when sending the reset email
fails, while a successful send leaves the fresh reset OTP stored.
(Further such rules exist elsewhere, e.g. the agent-failure fallback of
chatWithAgent settled under claim C7; this theorem establishes the two
named here.) -/
theorem cancel_and_forgot_failure_rules (a : Appointment)
    (reason : Option String) (now : Nat) (u : UserAcc) (gen : String) :
    ((cancelHoursDiff a now < 2 →
      cancelAppointment a reason now = (400, a)) ∧
     (¬ (cancelHoursDiff a now < 2) →
      (cancelAppointment a reason now).1 = 200 ∧
      (cancelAppointment a reason now).2.status = ApptStatus.cancelled)) ∧
    (forgotPassword u now gen false =
      (500, { u with resetPasswordOTP := none,
                     resetPasswordOTPExpiry := none }) ∧
     forgotPassword u now gen true =
      (200, { u with resetPasswordOTP := some gen,
                     resetPasswordOTPExpiry := some (now + 15 * 60 * 1000) })) := by
  refine ⟨⟨?_, ?_⟩, ?_, ?_⟩
  · intro h
    unfold cancelAppointment
    rw [if_pos h]
  · intro h
    unfold cancelAppointment
    rw [if_neg h]
    exact ⟨rfl, rfl⟩
  · rfl
  · rfl

/-- Claim C8 amended witness: the concrete one-hour-away appointment and a
concrete user whose reset fields are cleared on a failed send. -/
theorem cancel_and_forgot_failure_rules_witness :
    cancelAppointment demoSoonAppt none 0 = (400, demoSoonAppt) ∧
    (forgotPassword
        { id := 7, email := "a@b.co", firstName := "A", isActive := true,
          isEmailVerified := true, emailOTP := none, emailOTPExpiry := none,
          resetPasswordOTP := none, resetPasswordOTPExpiry := none }
        0 ("123456") false).2.resetPasswordOTP = none := by
  have h := cancel_and_forgot_failure_rules demoSoonAppt none 0
    { id := 7, email := "a@b.co", firstName := "A", isActive := true,
      isEmailVerified := true, emailOTP := none, emailOTPExpiry := none,
      resetPasswordOTP := none, resetPasswordOTPExpiry := none } ("123456")
  refine ⟨h.1.1 ?_, ?_⟩
  · unfold cancelHoursDiff demoSoonAppt
    norm_num
  · rw [h.2.1]

theorem otpQueryMatches_iff (u : UserAcc) (o : String) (now : Nat) :
    otpQueryMatches u o now = true ↔
      (u.emailOTP = some o ∧ ∃ e, u.emailOTPExpiry = some e ∧ now < e) := by
  unfold otpQueryMatches
  cases he : u.emailOTP with
  | none => simp
  | some stored =>
    cases hx : u.emailOTPExpiry with
    | none => simp
    | some exp =>
      simp only [Bool.and_eq_true, decide_eq_true_eq, Option.some_inj]
      constructor
      · rintro ⟨rfl, hlt⟩
        exact ⟨rfl, exp, rfl, hlt⟩
      · rintro ⟨rfl, e, he2, hlt⟩
        cases he2
        exact ⟨rfl, hlt⟩

/-- Claim C5: verifyEmail answers 200 exactly when the supplied otp equals
the stored emailOTP and emailOTPExpiry is strictly in the future (stored
OTPs are six-digit strings, never empty, which the hypothesis records);
success sets isEmailVerified and clears both OTP fields, every other
outcome is a 400 with the user unchanged; signup stores a fresh OTP with a
ten-minute expiry on a not-yet-verified account, and resendEmailOTP
rejects already-verified accounts with 400 and otherwise stores a fresh
OTP with a ten-minute expiry. -/
theorem email_otp_workflow (u : UserAcc) (otp : Option String) (now : Nat)
    (uid : Nat) (email firstName gen : String) (emailOk : Bool)
    (hstored : u.emailOTP ≠ some ("")) :
    ((verifyEmail u otp now).1 = 200 ↔
      (∃ o, otp = some o ∧ u.emailOTP = some o ∧
        ∃ e, u.emailOTPExpiry = some e ∧ now < e)) ∧
    ((verifyEmail u otp now).1 = 200 →
      (verifyEmail u otp now).2 =
        { u with isEmailVerified := true, emailOTP := none,
                 emailOTPExpiry := none }) ∧
    ((verifyEmail u otp now).1 ≠ 200 →
      (verifyEmail u otp now).1 = 400 ∧ (verifyEmail u otp now).2 = u) ∧
    ((signupCreateUser uid email firstName now gen).emailOTP = some gen ∧
     (signupCreateUser uid email firstName now gen).emailOTPExpiry =
       some (now + 10 * 60 * 1000) ∧
     (signupCreateUser uid email firstName now gen).isEmailVerified =
       false) ∧
    (u.isEmailVerified = true → resendEmailOTP u now gen emailOk = (400, u)) ∧
    (u.isEmailVerified = false →
      (resendEmailOTP u now gen emailOk).2.emailOTP = some gen ∧
      (resendEmailOTP u now gen emailOk).2.emailOTPExpiry =
        some (now + 10 * 60 * 1000)) := by
  have hbranches : (verifyEmail u otp now = (400, u) ∧
      ¬ (∃ o, otp = some o ∧ u.emailOTP = some o ∧
        ∃ e, u.emailOTPExpiry = some e ∧ now < e)) ∨
      (verifyEmail u otp now =
        (200, { u with isEmailVerified := true, emailOTP := none,
                       emailOTPExpiry := none }) ∧
      (∃ o, otp = some o ∧ u.emailOTP = some o ∧
        ∃ e, u.emailOTPExpiry = some e ∧ now < e)) := by
    cases otp with
    | none =>
      left
      refine ⟨rfl, ?_⟩
      rintro ⟨o, ho, _⟩
      exact Option.noConfusion ho
    | some o =>
      by_cases ho : o = ""
      · subst ho
        left
        constructor
        · simp [verifyEmail]
        · rintro ⟨o2, ho2, hstored2, _⟩
          obtain rfl := Option.some_inj.mp ho2
          exact absurd hstored2 hstored
      · by_cases hm : otpQueryMatches u o now = true
        · right
          constructor
          · simp [verifyEmail, ho, hm]
          · rcases (otpQueryMatches_iff u o now).mp hm with ⟨h1, e, h2, h3⟩
            exact ⟨o, rfl, h1, e, h2, h3⟩
        · left
          constructor
          · simp [verifyEmail, ho, hm]
          · rintro ⟨o2, ho2, hstored2, e, he, hlt⟩
            obtain rfl := Option.some_inj.mp ho2
            exact hm ((otpQueryMatches_iff u o now).mpr
              ⟨hstored2, e, he, hlt⟩)
  refine ⟨?_, ?_, ?_, ⟨rfl, rfl, rfl⟩, ?_, ?_⟩
  · rcases hbranches with ⟨hv, hno⟩ | ⟨hv, hyes⟩
    · rw [hv]
      constructor
      · intro h
        simp at h
      · intro h
        exact absurd h hno
    · rw [hv]
      exact ⟨fun _ => hyes, fun _ => rfl⟩
  · rcases hbranches with ⟨hv, _⟩ | ⟨hv, _⟩
    · rw [hv]
      intro h
      simp at h
    · rw [hv]
      intro _
      rfl
  · rcases hbranches with ⟨hv, _⟩ | ⟨hv, _⟩
    · rw [hv]
      intro _
      exact ⟨rfl, rfl⟩
    · rw [hv]
      intro h
      exact absurd rfl h
  · intro h
    simp [resendEmailOTP, h]
  · intro h
    cases emailOk <;> simp [resendEmailOTP, h]

/-- Claim C5 witness: the concrete matching verification succeeds and an
expired or wrong OTP keeps the record unchanged. -/
theorem email_otp_workflow_witness :
    (verifyEmail demoOtpUser (some ("123456")) 0).1 = 200 ∧
    (verifyEmail demoOtpUser (some ("123456")) 0).2 =
      { demoOtpUser with isEmailVerified := true, emailOTP := none,
                         emailOTPExpiry := none } ∧
    (verifyEmail demoOtpUser (some ("123456")) 600000).1 = 400 := by
  have h := email_otp_workflow demoOtpUser (some ("123456")) 0 8 ("c@d.co")
    ("C") ("123456") true (by decide)
  have hlate := email_otp_workflow demoOtpUser (some ("123456")) 600000 8
    ("c@d.co") ("C") ("123456") true (by decide)
  have h200 : (verifyEmail demoOtpUser (some ("123456")) 0).1 = 200 :=
    h.1.mpr ⟨"123456", rfl, rfl, 600000, rfl, by decide⟩
  refine ⟨h200, h.2.1 h200, ?_⟩
  refine (hlate.2.2.1 ?_).1
  intro hc
  rcases hlate.1.mp hc with ⟨o, ho, _, e, he, hlt⟩
  cases ho
  cases he
  exact absurd hlt (by decide)

/-- Claim C6: every protected endpoint (profile, chat and appointment
routes) carries the authenticate middleware, and authenticate admits a
request exactly through the chain: token present and truthy, verification
successful, decoded id resolving to a stored user, user active — failing
with 401 on a missing token, on any JWT verification error and on an
unmatched id, with 403 on an inactive user, and attaching the user on
success. -/
theorem authenticate_secures_routes (cookieToken headerAuth : Option String)
    (verify : String → VerifyOutcome) (findById : Nat → Option AuthUser)
    (t : String) (oid : Option Nat) (u : AuthUser) :
    (∀ r ∈ chatRoutes ++ appointmentRoutes ++ protectedUserRoutes,
      "authenticate" ∈ r.middlewares) ∧
    (effectiveToken cookieToken headerAuth = none →
      authenticate cookieToken headerAuth verify findById =
        AuthResult.failure 401 ("Access token is required")) ∧
    (effectiveToken cookieToken headerAuth = some ("") →
      authenticate cookieToken headerAuth verify findById =
        AuthResult.failure 401 ("Access token is required")) ∧
    (effectiveToken cookieToken headerAuth = some t → t ≠ "" →
      ((verify t = VerifyOutcome.badToken →
        authenticate cookieToken headerAuth verify findById =
          AuthResult.failure 401 ("Invalid access token")) ∧
       (verify t = VerifyOutcome.expired →
        authenticate cookieToken headerAuth verify findById =
          AuthResult.failure 401 ("Access token has expired")) ∧
       (verify t = VerifyOutcome.notBefore →
        authenticate cookieToken headerAuth verify findById =
          AuthResult.failure 401 ("Access token not active")) ∧
       (verify t = VerifyOutcome.ok oid → oid.bind findById = none →
        authenticate cookieToken headerAuth verify findById =
          AuthResult.failure 401 ("Invalid access token")) ∧
       (verify t = VerifyOutcome.ok oid → oid.bind findById = some u →
        u.isActive = false →
        authenticate cookieToken headerAuth verify findById =
          AuthResult.failure 403 ("Account has been deactivated")) ∧
       (verify t = VerifyOutcome.ok oid → oid.bind findById = some u →
        u.isActive = true →
        authenticate cookieToken headerAuth verify findById =
          AuthResult.success u))) ∧
    (∀ v, authenticate cookieToken headerAuth verify findById =
        AuthResult.success v → v.isActive = true) := by
  refine ⟨by decide, ?_, ?_, ?_, ?_⟩
  · intro he
    unfold authenticate
    rw [he]
  · intro he
    unfold authenticate
    rw [he]
    rfl
  · intro he hne
    refine ⟨?_, ?_, ?_, ?_, ?_, ?_⟩ <;> unfold authenticate <;> rw [he] <;>
      dsimp only
    · intro hv
      rw [if_neg hne, hv]
    · intro hv
      rw [if_neg hne, hv]
    · intro hv
      rw [if_neg hne, hv]
    · intro hv hf
      rw [if_neg hne, hv]
      dsimp only
      rw [hf]
    · intro hv hf hia
      rw [if_neg hne, hv]
      dsimp only
      rw [hf]
      dsimp only
      rw [hia]
      simp
    · intro hv hf hia
      rw [if_neg hne, hv]
      dsimp only
      rw [hf]
      dsimp only
      rw [hia]
      rfl
  · intro v hs
    unfold authenticate at hs
    rcases he : effectiveToken cookieToken headerAuth with _ | t2 <;>
      rw [he] at hs <;> dsimp only at hs
    · exact AuthResult.noConfusion hs
    · by_cases ht2 : t2 = ""
      · rw [if_pos ht2] at hs
        exact AuthResult.noConfusion hs
      · rw [if_neg ht2] at hs
        rcases hv : verify t2 with oid2 | _ | _ | _ <;> rw [hv] at hs <;>
          dsimp only at hs
        · rcases hf : oid2.bind findById with _ | u2 <;> rw [hf] at hs <;>
            dsimp only at hs
          · exact AuthResult.noConfusion hs
          · by_cases hia : u2.isActive = true
            · rw [if_pos hia] at hs
              cases hs
              exact hia
            · rw [if_neg hia] at hs
              exact AuthResult.noConfusion hs
        · exact AuthResult.noConfusion hs
        · exact AuthResult.noConfusion hs
        · exact AuthResult.noConfusion hs

/-- Claim C6 witness: a concrete verifier and store exercising the
success path and the missing-token rejection. -/
theorem authenticate_secures_routes_witness :
    authenticate (some ("tok")) none
      (fun s => if s = "tok" then VerifyOutcome.ok (some 1)
        else VerifyOutcome.badToken)
      (fun i => if i = 1 then some { id := 1, isActive := true } else none) =
      AuthResult.success { id := 1, isActive := true } ∧
    authenticate none none
      (fun s => if s = "tok" then VerifyOutcome.ok (some 1)
        else VerifyOutcome.badToken)
      (fun i => if i = 1 then some { id := 1, isActive := true } else none) =
      AuthResult.failure 401 ("Access token is required") := by
  have h1 := authenticate_secures_routes (some ("tok")) none
    (fun s => if s = "tok" then VerifyOutcome.ok (some 1)
      else VerifyOutcome.badToken)
    (fun i => if i = 1 then some { id := 1, isActive := true } else none)
    ("tok") (some 1) { id := 1, isActive := true }
  have h2 := authenticate_secures_routes none none
    (fun s => if s = "tok" then VerifyOutcome.ok (some 1)
      else VerifyOutcome.badToken)
    (fun i => if i = 1 then some { id := 1, isActive := true } else none)
    ("tok") (some 1) { id := 1, isActive := true }
  refine ⟨?_, h2.2.1 rfl⟩
  exact (h1.2.2.2.1 rfl (by decide)).2.2.2.2.2 rfl rfl rfl

theorem charListLt_irrefl (x : List Char) : charListLt x x = false := by
  induction x with
  | nil => rfl
  | cons a as ih =>
    unfold charListLt
    rw [if_neg (lt_irrefl a), if_neg (lt_irrefl a)]
    exact ih

theorem charListLt_asymm {x y : List Char} (h : charListLt x y = true) :
    charListLt y x = false := by
  induction x generalizing y with
  | nil =>
    cases y with
    | nil => rfl
    | cons b bs => rfl
  | cons a as ih =>
    cases y with
    | nil => exact absurd h (by simp [charListLt])
    | cons b bs =>
      unfold charListLt at h ⊢
      by_cases hab : a < b
      · rw [if_neg (asymm hab), if_pos hab]
      · rw [if_neg hab] at h
        by_cases hba : b < a
        · rw [if_pos hba] at h
          exact absurd h (by decide)
        · rw [if_neg hba] at h
          rw [if_neg hba, if_neg hab]
          exact ih h

theorem charListLt_trans {x y z : List Char} (hxy : charListLt x y = true)
    (hyz : charListLt y z = true) : charListLt x z = true := by
  induction x generalizing y z with
  | nil =>
    cases z with
    | nil =>
      cases y with
      | nil => exact hxy
      | cons b bs => exact absurd hyz (by simp [charListLt])
    | cons c cs => rfl
  | cons a as ih =>
    cases y with
    | nil => exact absurd hxy (by simp [charListLt])
    | cons b bs =>
      cases z with
      | nil => exact absurd hyz (by simp [charListLt])
      | cons c cs =>
        unfold charListLt at hxy hyz ⊢
        by_cases hab : a < b
        · by_cases hbc : b < c
          · rw [if_pos (lt_trans hab hbc)]
          · rw [if_neg hbc] at hyz
            by_cases hcb : c < b
            · rw [if_pos hcb] at hyz
              exact absurd hyz (by decide)
            · have hbc2 : b = c := le_antisymm (not_lt.mp hcb) (not_lt.mp hbc)
              rw [← hbc2, if_pos hab]
        · rw [if_neg hab] at hxy
          by_cases hba : b < a
          · rw [if_pos hba] at hxy
            exact absurd hxy (by decide)
          · rw [if_neg hba] at hxy
            have hab2 : a = b := le_antisymm (not_lt.mp hba) (not_lt.mp hab)
            subst hab2
            by_cases hac : a < c
            · rw [if_pos hac]
            · rw [if_neg hac] at hyz ⊢
              by_cases hca : c < a
              · rw [if_pos hca] at hyz
                exact absurd hyz (by decide)
              · rw [if_neg hca] at hyz ⊢
                exact ih hxy hyz

theorem strLtB_irrefl (s : String) : strLtB s s = false :=
  charListLt_irrefl s.data

theorem strLtB_asymm {s t : String} (h : strLtB s t = true) :
    strLtB t s = false :=
  charListLt_asymm h

theorem strLtB_trans {s t r : String} (hst : strLtB s t = true)
    (htr : strLtB t r = true) : strLtB s r = true :=
  charListLt_trans hst htr

theorem strMax_ge_left (s t : String) : strLtB (strMax s t) s = false := by
  unfold strMax
  by_cases h : strLtB s t = true
  · rw [if_pos h]
    exact strLtB_asymm h
  · rw [if_neg h]
    exact strLtB_irrefl s

theorem strMax_ge_right (s t : String) : strLtB (strMax s t) t = false := by
  unfold strMax
  by_cases h : strLtB s t = true
  · rw [if_pos h]
    exact strLtB_irrefl t
  · rw [if_neg h]
    exact Bool.not_eq_true _ ▸ h

theorem strMax_cases (s t : String) : strMax s t = s ∨ strMax s t = t := by
  unfold strMax
  by_cases h : strLtB s t = true
  · rw [if_pos h]
    right
    rfl
  · rw [if_neg h]
    left
    rfl

theorem strMax_preserves {s t x : String} (hx : strLtB s x = false) :
    strLtB (strMax s t) x = false := by
  unfold strMax
  by_cases h : strLtB s t = true
  · rw [if_pos h]
    by_cases hlt : strLtB t x = true
    · exfalso
      have h2 := strLtB_trans h hlt
      rw [hx] at h2
      exact Bool.noConfusion h2
    · simpa using hlt
  · rw [if_neg h]
    exact hx

theorem foldl_strMax_mem (l : List String) (m : String) :
    l.foldl strMax m = m ∨ l.foldl strMax m ∈ l := by
  induction l generalizing m with
  | nil =>
    left
    rfl
  | cons a as ih =>
    rcases ih (strMax m a) with h | h
    · rw [List.foldl_cons, h]
      rcases strMax_cases m a with h2 | h2
      · left
        exact h2
      · right
        rw [h2]
        exact List.mem_cons_self a as
    · right
      rw [List.foldl_cons]
      exact List.mem_cons_of_mem a h

theorem foldl_strMax_preserves (l : List String) {m x : String}
    (h : strLtB m x = false) : strLtB (l.foldl strMax m) x = false := by
  induction l generalizing m with
  | nil => exact h
  | cons a as ih =>
    rw [List.foldl_cons]
    exact ih (strMax_preserves h)

theorem foldl_strMax_ge (l : List String) (m : String) :
    strLtB (l.foldl strMax m) m = false ∧
    ∀ x ∈ l, strLtB (l.foldl strMax m) x = false := by
  constructor
  · exact foldl_strMax_preserves l (strLtB_irrefl m)
  · induction l generalizing m with
    | nil =>
      intro x hx
      cases hx
    | cons a as ih =>
      intro x hx
      rw [List.foldl_cons]
      rcases List.mem_cons.mp hx with rfl | hx2
      · exact foldl_strMax_preserves as (strMax_ge_right m x)
      · exact ih (strMax m a) x hx2

theorem foldl_urgencyStep_some (l : List String) (m : String) :
    l.foldl urgencyStep (some m) = some (l.foldl strMax m) := by
  induction l generalizing m with
  | nil => rfl
  | cons a as ih =>
    rw [List.foldl_cons, List.foldl_cons]
    exact ih (strMax m a)

/-- Claim C9: getUrgencyLevel folds $max over the matched urgencyLevel
strings, so it returns the bytewise (lexicographically) greatest matched
level: none exactly on no match, otherwise a matched level no matched
level exceeds; since the byte order puts high below medium, a match set
drawn from low, medium and high that contains medium reports medium even
when high also matched. -/
theorem getUrgencyLevel_lexicographic_max (db : List Specialization)
    (s : String) :
    (matchedUrgencyLevels db s = [] → getUrgencyLevel db s = none) ∧
    (∀ m, getUrgencyLevel db s = some m →
      m ∈ matchedUrgencyLevels db s ∧
      ∀ l ∈ matchedUrgencyLevels db s, strLtB m l = false) ∧
    ("medium" ∈ matchedUrgencyLevels db s →
      (∀ l ∈ matchedUrgencyLevels db s,
        l = "low" ∨ l = "medium" ∨ l = "high") →
      getUrgencyLevel db s = some ("medium")) ∧
    strLtB ("high") ("medium") = true ∧
    strLtB ("medium") ("urgent") = true := by
  have hunf : ∀ a rest, matchedUrgencyLevels db s = a :: rest →
      getUrgencyLevel db s = some (rest.foldl strMax a) := by
    intro a rest hml
    unfold getUrgencyLevel
    rw [hml, List.foldl_cons]
    exact foldl_urgencyStep_some rest a
  refine ⟨?_, ?_, ?_, by decide, by decide⟩
  · intro hml
    unfold getUrgencyLevel
    rw [hml]
    rfl
  · intro m hm
    rcases hml : matchedUrgencyLevels db s with _ | ⟨a, rest⟩
    · unfold getUrgencyLevel at hm
      rw [hml] at hm
      exact Option.noConfusion hm
    · have h2 := hunf a rest hml
      rw [h2] at hm
      obtain rfl := Option.some_inj.mp hm
      constructor
      · rcases foldl_strMax_mem rest a with h | h
        · rw [h]
          exact List.mem_cons_self a rest
        · exact List.mem_cons_of_mem a h
      · intro l hl
        rcases List.mem_cons.mp hl with rfl | hl2
        · exact (foldl_strMax_ge rest l).1
        · exact (foldl_strMax_ge rest a).2 l hl2
  · intro hmed hall
    rcases hml : matchedUrgencyLevels db s with _ | ⟨a, rest⟩
    · rw [hml] at hmed
      cases hmed
    · have h2 := hunf a rest hml
      set m := rest.foldl strMax a with hmdef
      have hmem : m ∈ matchedUrgencyLevels db s := by
        rcases foldl_strMax_mem rest a with h | h
        · rw [hml, hmdef, h]
          exact List.mem_cons_self a rest
        · rw [hml]
          exact List.mem_cons_of_mem a h
      have hge : ∀ l ∈ matchedUrgencyLevels db s, strLtB m l = false := by
        intro l hl
        rw [hml] at hl
        rcases List.mem_cons.mp hl with rfl | hl2
        · exact (foldl_strMax_ge rest l).1
        · exact (foldl_strMax_ge rest a).2 l hl2
      have hmmed := hge ("medium") hmed
      rcases hall m hmem with h3 | h3 | h3
      · exfalso
        rw [h3] at hmmed
        have : strLtB ("low") ("medium") = true := by decide
        rw [this] at hmmed
        exact Bool.noConfusion hmmed
      · rw [h2, h3]
      · exfalso
        rw [h3] at hmmed
        have : strLtB ("high") ("medium") = true := by decide
        rw [this] at hmmed
        exact Bool.noConfusion hmmed

/-- Claim C9 witness: when both the high and the medium keyword match, the
reported maximum urgency is medium. -/
theorem getUrgencyLevel_witness :
    "medium" ∈ matchedUrgencyLevels [demoUrgencySpec] ("chest pain") ∧
    "high" ∈ matchedUrgencyLevels [demoUrgencySpec] ("chest pain") ∧
    getUrgencyLevel [demoUrgencySpec] ("chest pain") = some ("medium") := by
  refine ⟨by decide, by decide, ?_⟩
  exact (getUrgencyLevel_lexicographic_max [demoUrgencySpec]
    ("chest pain")).2.2.1 (by decide) (by decide)

end Medigo

